import Mathlib

/-!
Verification development for the SlackPulse notification pipeline.

The definitions below are a shallow embedding of the Python sources:
`filters/deduplication.py`, `filters/bot.py`, `core/monitor.py`,
`detectors/database.py`, `detectors/hybrid.py`, `detectors/distributed.py`,
`detectors/filesystem.py`.  Machine timestamps are modelled as `Int`,
byte strings as `List Nat`, opaque notification identifiers as `Nat`.
Python string operations are modelled on ASCII data (the repository's
patterns, keywords and markers are all ASCII).
-/

namespace SlackPulse

/-! ## Python string helpers (ASCII semantics) -/

/-- Models Python `str.lower` for a single ASCII character. -/
def asciiLowerChar (c : Char) : Char :=
  if 'A' ≤ c && c ≤ 'Z' then Char.ofNat (c.toNat + 32) else c

/-- Models Python `str.lower` (ASCII fragment). -/
def pyLower (s : String) : String :=
  ⟨s.data.map asciiLowerChar⟩

/-- Characters stripped by Python `str.strip()`. -/
def isPySpace (c : Char) : Bool :=
  c == ' ' || c == '\t' || c == '\n' || c == '\r' || c == '\x0b' || c == '\x0c'

/-- Strip leading and trailing whitespace from a character list. -/
def pyStripList (l : List Char) : List Char :=
  ((l.dropWhile isPySpace).reverse.dropWhile isPySpace).reverse

/-- Models Python `str.strip()`. -/
def pyStrip (s : String) : String :=
  ⟨pyStripList s.data⟩

/-- Is `w` a prefix of `s`?  Helper for substring search. -/
def prefixMatch : List Char → List Char → Bool
  | [], _ => true
  | _ :: _, [] => false
  | a :: w, b :: s => a == b && prefixMatch w s

/-- Does `s` contain `w` as a contiguous substring?  Models Python
`w in s` on strings and `re.search` for a literal pattern. -/
def containsSub (w : List Char) : List Char → Bool
  | [] => prefixMatch w []
  | c :: rest => prefixMatch w (c :: rest) || containsSub w rest

/-- Characters of `s` before the first occurrence of `sep`; models
Python `s.split(sep)[0]` when `sep` occurs in `s`. -/
def takeBefore (sep : List Char) : List Char → List Char
  | [] => []
  | c :: rest => if prefixMatch sep (c :: rest) then [] else c :: takeBefore sep rest

/-! ## SHA-256 (the `hashlib.sha256` call in `DeduplicationCache._compute_hash`) -/

/-- Truncate to a 32-bit word. -/
def w32 (x : Nat) : Nat := x % 4294967296

/-- 32-bit rotate right. -/
def rotr32 (n x : Nat) : Nat := w32 ((x >>> n) ||| (x <<< (32 - n)))

def sha2BigSigma0 (x : Nat) : Nat := rotr32 2 x ^^^ rotr32 13 x ^^^ rotr32 22 x

def sha2BigSigma1 (x : Nat) : Nat := rotr32 6 x ^^^ rotr32 11 x ^^^ rotr32 25 x

def sha2SmallSigma0 (x : Nat) : Nat := rotr32 7 x ^^^ rotr32 18 x ^^^ (x >>> 3)

def sha2SmallSigma1 (x : Nat) : Nat := rotr32 17 x ^^^ rotr32 19 x ^^^ (x >>> 10)

def sha2Ch (x y z : Nat) : Nat := (x &&& y) ^^^ ((x ^^^ 4294967295) &&& z)

def sha2Maj (x y z : Nat) : Nat := (x &&& y) ^^^ (x &&& z) ^^^ (y &&& z)

/-- SHA-256 round constants (decimal rendering of the FIPS 180-4 table). -/
def sha2K : List Nat :=
  [116352408, 1899447441, 3049323471, 3921009573, 961987163,
   1508970993, 2453635748, 2870763221, 3624381080, 310598401,
   607225278, 1426881987, 1925078388, 2162078206, 2614888103,
   3248222580, 3835390401, 4022224774, 264347078, 604807628,
   770255983, 1249150122, 1555081692, 1996064986, 2554220882,
   2821834349, 2952996808, 3210313671, 3336571891, 3584528711,
   113926993, 338241895, 666307205, 773529912, 1294757372,
   1396182291, 1695183700, 1986661051, 2177026350, 2456956037,
   2730485921, 2820302411, 3259730800, 3345764771, 3516065817,
   3600352804, 4094571909, 275423344, 430227734, 506948616,
   659060556, 883997877, 958139571, 1322822218, 1537002063,
   1747873779, 1955562222, 2024104815, 2227730452, 2361852424,
   2428436474, 2756734187, 3204031479, 3329325298]

/-- SHA-256 initial hash value (decimal rendering). -/
def sha2H0 : List Nat :=
  [779033703, 3144134277, 1013904242, 2773480762,
   1359893119, 2600822924, 528734635, 1541459225]

/-- Big-endian byte expansion of `x` to `n` bytes. -/
def beBytes : Nat → Nat → List Nat
  | 0, _ => []
  | n + 1, x => beBytes n (x / 256) ++ [x % 256]

/-- Group bytes into 16 big-endian 32-bit words. -/
def wordsOfChunk : List Nat → List Nat
  | b0 :: b1 :: b2 :: b3 :: rest =>
      (((b0 * 256 + b1) * 256 + b2) * 256 + b3) :: wordsOfChunk rest
  | _ => []

/-- Extend the 16-word message schedule by `n` further words. -/
def extendSchedule : List Nat → Nat → List Nat
  | ws, 0 => ws
  | ws, n + 1 =>
      let t := ws.length
      let g : Nat → Nat := fun k => ws.getD (t - k) 0
      extendSchedule
        (ws ++ [w32 (sha2SmallSigma1 (g 2) + g 7 + sha2SmallSigma0 (g 15) + g 16)]) n

/-- One SHA-256 compression round on state `[a,b,c,d,e,f,g,h]`. -/
def sha2Round (s : List Nat) (ki wi : Nat) : List Nat :=
  match s with
  | [a, b, c, d, e, f, g, h] =>
      let t1 := w32 (h + sha2BigSigma1 e + sha2Ch e f g + ki + wi)
      let t2 := w32 (sha2BigSigma0 a + sha2Maj a b c)
      [w32 (t1 + t2), a, b, c, w32 (d + t1), e, f, g]
  | _ => s

/-- Compress one 64-byte chunk into the running hash. -/
def compressChunk (h : List Nat) (chunk : List Nat) : List Nat :=
  let ws := extendSchedule (wordsOfChunk chunk) 48
  let s := (List.zip sha2K ws).foldl (fun s kw => sha2Round s kw.1 kw.2) h
  (List.zip h s).map (fun p => w32 (p.1 + p.2))

/-- Split a byte list into 64-byte chunks. -/
def chunks64 : List Nat → List (List Nat)
  | [] => []
  | a :: rest => (a :: rest.take 63) :: chunks64 (rest.drop 63)
termination_by l => l.length
decreasing_by
  simp only [List.length_drop, List.length_cons]
  omega

/-- SHA-256 of a byte string, as 32 output bytes. -/
def sha256bytes (msg : List Nat) : List Nat :=
  let L := msg.length
  let z := (119 - (L % 64)) % 64
  let padded := msg ++ [128] ++ List.replicate z 0 ++ beBytes 8 (L * 8)
  let hh := (chunks64 padded).foldl compressChunk sha2H0
  (hh.map (beBytes 4)).foldr (· ++ ·) []

/-- Lowercase hexadecimal digit. -/
def hexDigit (n : Nat) : Char :=
  if n < 10 then Char.ofNat (48 + n) else Char.ofNat (87 + n)

/-- Hexadecimal rendering of a byte string; models `hexdigest()`. -/
def hexOfBytes (bs : List Nat) : String :=
  ⟨(bs.map (fun b => [hexDigit (b / 16), hexDigit (b % 16)])).foldr (· ++ ·) []⟩

/-- UTF-8 bytes of one character; models Python `str.encode()`. -/
def utf8EncodeChar (c : Char) : List Nat :=
  let n := c.toNat
  if n < 128 then [n]
  else if n < 2048 then [192 + n / 64, 128 + n % 64]
  else if n < 65536 then [224 + n / 4096, 128 + (n / 64) % 64, 128 + n % 64]
  else [240 + n / 262144, 128 + (n / 4096) % 64, 128 + (n / 64) % 64, 128 + n % 64]

/-- UTF-8 encoding of a string. -/
def utf8Encode (s : String) : List Nat :=
  (s.data.map utf8EncodeChar).foldr (· ++ ·) []

/-! ## DeduplicationCache (`filters/deduplication.py`) -/

/-- Normalized fingerprint content
`f"{sender.lower().strip()}:{message.lower().strip()}"` from
`DeduplicationCache._compute_hash`. -/
def normalizeContent (sender message : String) : String :=
  pyStrip (pyLower sender) ++ ":" ++ pyStrip (pyLower message)

/-- Models `DeduplicationCache._compute_hash`: sha256 hexdigest of the
normalized content, truncated to 16 hex characters. -/
@[irreducible] def computeHash (sender message : String) : String :=
  (hexOfBytes (sha256bytes (utf8Encode (normalizeContent sender message)))).take 16

/-- State of `DeduplicationCache`: the configured window and the
insertion-ordered `OrderedDict` from fingerprint to first-seen time,
oldest first. -/
structure DeduplicationCache where
  windowSeconds : Int
  cache : List (String × Int)

/-- Models `DeduplicationCache._cleanup_expired`: walk from the oldest
entry, deleting entries with timestamp below the cutoff, and stop at the
first entry still inside the window. -/
def cleanupExpired (cutoff : Int) : List (String × Int) → List (String × Int)
  | [] => []
  | (k, t) :: rest => if t < cutoff then cleanupExpired cutoff rest else (k, t) :: rest

/-- Models `DeduplicationCache.is_duplicate` at time `now`: sweep expired
entries, then return true if the fingerprint is present (no state
change), else insert it with `now` and return false. -/
def isDuplicate (c : DeduplicationCache) (now : Int) (sender message : String) :
    Bool × DeduplicationCache :=
  if computeHash sender message ∈
      (cleanupExpired (now - c.windowSeconds) c.cache).map Prod.fst then
    (true, { c with cache := cleanupExpired (now - c.windowSeconds) c.cache })
  else
    (false, { c with cache := cleanupExpired (now - c.windowSeconds) c.cache
                              ++ [(computeHash sender message, now)] })

/-! ## BotFilter (`filters/bot.py`) -/

/-- Shape of a default bot-sender regex: either a `\b`-delimited word
(`\bbot\b`, `\bapp\b`) or a plain literal (all remaining defaults contain
no regex metacharacters, so `re.search` is literal containment). -/
inductive BotPattern where
  | word : String → BotPattern
  | lit : String → BotPattern

/-- Python `\w` on ASCII data: letters, digits, underscore. -/
def isWordChar (c : Char) : Bool :=
  c.isAlpha || c.isDigit || c == '_'

/-- Search for `w` with `\b` boundaries on both sides, given the
character just before the current position (`none` at string start). -/
def searchWordAux (w : List Char) : Option Char → List Char → Bool
  | _, [] => false
  | prev, c :: rest =>
      ((match prev with | none => true | some p => !isWordChar p)
        && prefixMatch w (c :: rest)
        && (match (c :: rest).drop w.length with
            | [] => true
            | d :: _ => !isWordChar d))
      || searchWordAux w (some c) rest

/-- Models `pattern.search(sender_lower)` for one default pattern. -/
def patternSearch : BotPattern → List Char → Bool
  | .word w, s => searchWordAux w.data none s
  | .lit w, s => containsSub w.data s

/-- The `DEFAULT_BOT_PATTERNS` list of `BotFilter`, in source order. -/
def defaultBotPatterns : List BotPattern :=
  [.word "bot", .lit "slackbot", .lit "workflow", .lit "automation",
   .word "app", .lit "integration", .lit "webhook"]

/-- The `DEFAULT_BOT_KEYWORDS` list of `BotFilter`, in source order. -/
def defaultBotKeywords : List String :=
  ["has joined the channel", "has left the channel", "set the channel topic",
   "set the channel description", "set the channel purpose", "was added to",
   "was removed from", "archived the channel", "unarchived the channel",
   "renamed the channel"]

/-- Models the `BotFilter.__init__` lowering of the keyword list. -/
def botKeywordsInit (ks : List String) : List String :=
  ks.map pyLower

/-- Models `BotFilter.is_bot_message`: lower both strings, test the
sender against the name patterns in order, then test the message for
containment of each keyword in order; first match returns true. -/
def isBotMessage (patterns : List BotPattern) (keywords : List String)
    (sender message : String) : Bool :=
  let senderLower := pyLower sender
  let messageLower := pyLower message
  patterns.any (fun p => patternSearch p senderLower.data)
    || keywords.any (fun k => containsSub k.data messageLower.data)

/-! ## Orchestrator callback (`core/monitor.py`, `_handle_notification`) -/

/-- Mutable fields of `NotificationMonitor` touched by
`_handle_notification`: the dedup cache and the two counters.  The
monitor's `BotFilter()` is the default-constructed filter. -/
structure MonitorState where
  cache : DeduplicationCache
  processed : Nat
  filtered : Nat

/-- Models `NotificationMonitor._handle_notification` at time `now`.
Returns the new state together with the list of sink invocations
(`_announce_notification` forwarding `(sender, message)` to the external
TTS/SMS sink). -/
def handleNotification (st : MonitorState) (now : Int) (sender message : String)
    (metadata : Option (List (String × String))) :
    MonitorState × List (String × String) :=
  if sender = "" ∨ message = "" then (st, [])
  else if isBotMessage defaultBotPatterns (botKeywordsInit defaultBotKeywords)
      sender message then
    ({ st with filtered := st.filtered + 1 }, [])
  else if (isDuplicate st.cache now sender message).1 then
    ({ st with cache := (isDuplicate st.cache now sender message).2,
               filtered := st.filtered + 1 }, [])
  else
    let _ := metadata
    ({ st with cache := (isDuplicate st.cache now sender message).2,
               processed := st.processed + 1 }, [(sender, message)])

/-! ## DatabasePoll detector (`detectors/database.py`) -/

/-- Models `NotificationDatabaseDetector._clean_string` on string input:
newline, carriage return and tab become spaces, then strip. -/
def cleanString (s : String) : String :=
  pyStrip ⟨s.data.map (fun c => if c == '\n' || c == '\r' || c == '\t' then ' ' else c)⟩

/-- Models the modern-format branch of
`NotificationDatabaseDetector._parse_notification` on the `titl`,
`subt`, `body` fields of the payload.  The legacy `$objects` fallback
only fires when both results are empty and, on a record modelled by
these three fields, itself yields empty strings. -/
def parsePrimary (rawTitle rawSubtitle rawBody : String) : String × String :=
  let title := cleanString rawTitle
  let subtitle := cleanString rawSubtitle
  let body := cleanString rawBody
  let sender :=
    if containsSub (" in #".data) title.data then
      pyStrip ⟨takeBefore (" in #".data) title.data⟩
    else if subtitle ≠ "" then subtitle
    else title
  (sender, body)

/-- One store row as returned by the detector's query: the opaque
identifier, the modern-format payload fields, and the delivery time. -/
structure DbRow where
  uuid : Nat
  title : String
  subtitle : String
  body : String
  delivered : Int

/-- Private detector state: the `_last_timestamp` watermark and the
`_seen_uuids` set, modelled in iteration order. -/
structure DbState where
  lastTimestamp : Int
  seenUuids : List Nat

/-- One callback invocation made by the detector. -/
structure Emit where
  sender : String
  message : String
  uuid : Nat

/-- Models the per-row body of the loop in
`NotificationDatabaseDetector._check_for_notifications`: skip seen
identifiers, otherwise mark seen, advance the watermark, parse, and
invoke the callback when both fields are non-empty. -/
def processRow (st : DbState) (row : DbRow) : DbState × List Emit :=
  if row.uuid ∈ st.seenUuids then (st, [])
  else
    (⟨if row.delivered > st.lastTimestamp then row.delivered else st.lastTimestamp,
      st.seenUuids ++ [row.uuid]⟩,
     if (parsePrimary row.title row.subtitle row.body).1 ≠ "" ∧
        (parsePrimary row.title row.subtitle row.body).2 ≠ "" then
       [⟨(parsePrimary row.title row.subtitle row.body).1,
         (parsePrimary row.title row.subtitle row.body).2, row.uuid⟩]
     else [])

/-- Fold `processRow` over a query batch, collecting callback calls. -/
def processBatch : DbState → List DbRow → DbState × List Emit
  | st, [] => (st, [])
  | st, row :: rest =>
      let r1 := processRow st row
      let r2 := processBatch r1.1 rest
      (r2.1, r1.2 ++ r2.2)

/-- Models `set(list(seen)[-keep:])` applied when the set exceeds
`ceiling`, with the set's iteration order taken as insertion order. -/
def enforceCap (ceiling keep : Nat) (seen : List Nat) : List Nat :=
  if seen.length > ceiling then seen.drop (seen.length - keep) else seen

/-- Models one full poll tick of
`NotificationDatabaseDetector._check_for_notifications`: process the
batch, then enforce the 1000-identifier cap (truncating to the last
500). -/
def checkForNotifications (st : DbState) (rows : List DbRow) : DbState × List Emit :=
  let r := processBatch st rows
  (⟨r.1.lastTimestamp, enforceCap 1000 500 r.1.seenUuids⟩, r.2)

/-- Run a sequence of poll ticks, each over its own query batch. -/
def runTicks : DbState → List (List DbRow) → DbState
  | st, [] => st
  | st, b :: bs => runTicks (checkForNotifications st b).1 bs

/-! ## Hybrid detector (`detectors/hybrid.py`) -/

/-- One store row as seen by `HybridDetector._get_latest_notification`:
identifier plus the `titl` and `body` payload fields (this parser reads
no subtitle and applies no string cleaning). -/
structure HyRow where
  uuid : Nat
  title : String
  body : String

/-- Private hybrid state: the `_seen_uuids` set in iteration order. -/
structure HyState where
  seenUuids : List Nat

/-- Models the loop of `HybridDetector._get_latest_notification`: skip
seen identifiers; mark unseen ones seen; on the first row with non-empty
title and body, return its parsed content immediately — note the cap
enforcement is only reached when the loop completes without returning. -/
def hybridLookup : HyState → List HyRow → HyState × Option (String × String)
  | st, [] => (⟨enforceCap 500 250 st.seenUuids⟩, none)
  | st, row :: rest =>
      if row.uuid ∈ st.seenUuids then hybridLookup st rest
      else if row.title ≠ "" ∧ row.body ≠ "" then
        (⟨st.seenUuids ++ [row.uuid]⟩,
         some (if containsSub (" in #".data) row.title.data then
                 (⟨takeBefore (" in #".data) row.title.data⟩ : String)
               else row.title,
               row.body))
      else hybridLookup ⟨st.seenUuids ++ [row.uuid]⟩ rest

/-! ## DistributedObserve detector (`detectors/distributed.py`) -/

/-- First binding of `key` in the metadata mapping. -/
def lookupKey : List (String × String) → String → Option String
  | [], _ => none
  | (k, v) :: rest, key => if k == key then some v else lookupKey rest key

/-- Models Python `key in user_info`. -/
def hasKey (m : List (String × String)) (key : String) : Bool :=
  (lookupKey m key).isSome

/-- Value of `key` in the mapping, empty when absent. -/
def getKey (m : List (String × String)) (key : String) : String :=
  (lookupKey m key).getD ""

/-- Models `NotificationObserver._extract_message_info`: an empty
mapping yields empty fields; otherwise the sender is the value of the
first key *present* among `title`, `sender`, `from`, and the message the
value of the first key present among `body`, `message`, `text`. -/
def extractMessageInfo (userInfo : List (String × String)) : String × String :=
  if userInfo.isEmpty then ("", "")
  else
    let sender :=
      if hasKey userInfo "title" then getKey userInfo "title"
      else if hasKey userInfo "sender" then getKey userInfo "sender"
      else if hasKey userInfo "from" then getKey userInfo "from"
      else ""
    let message :=
      if hasKey userInfo "body" then getKey userInfo "body"
      else if hasKey userInfo "message" then getKey userInfo "message"
      else if hasKey userInfo "text" then getKey userInfo "text"
      else ""
    (sender, message)

/-- Value of the first key with a *non-empty* value, the extraction rule
the specification describes (written from the spec's words, for
comparison with `extractMessageInfo`). -/
def firstNonEmptyKey (m : List (String × String)) : List String → String
  | [] => ""
  | k :: rest =>
      if getKey m k ≠ "" then getKey m k else firstNonEmptyKey m rest

/-- The extraction rule as the specification states it: first non-empty
value among the preferred keys (written from the spec's words). -/
def extractMessageInfoSpec (userInfo : List (String × String)) : String × String :=
  (firstNonEmptyKey userInfo ["title", "sender", "from"],
   firstNonEmptyKey userInfo ["body", "message", "text"])

/-- Value of the first key *present* in the mapping, used to state the
amended extraction rule. -/
def firstPresentKey (m : List (String × String)) : List String → String
  | [] => ""
  | k :: rest => if hasKey m k then getKey m k else firstPresentKey m rest

/-- Models lines 66-68 of `NotificationObserver.handleNotification_` on
a matched, non-discovery event: extract the fields and invoke the
callback exactly when both are non-empty. -/
def observerEmits (userInfo : List (String × String)) : List (String × String) :=
  if (extractMessageInfo userInfo).1 ≠ "" ∧ (extractMessageInfo userInfo).2 ≠ "" then
    [((extractMessageInfo userInfo).1, (extractMessageInfo userInfo).2)]
  else []

/-! ## Detector `stop()` models -/

/-- State relevant to `FileSystemDetector.stop` and
`HybridDetector.stop`: whether `_observer` is still set. -/
structure ObserverDetectorState where
  hasObserver : Bool
deriving DecidableEq

/-- Models `FileSystemDetector.stop` (`detectors/filesystem.py` lines
181-187): when an observer is held, stop it, join it, and clear the
field; otherwise do nothing.  The returned list records the
resource-release actions performed. -/
def fsDetectorStop (st : ObserverDetectorState) : ObserverDetectorState × List String :=
  if st.hasObserver then (⟨false⟩, ["observer.stop", "observer.join"]) else (st, [])

/-- Models `HybridDetector.stop` (`detectors/hybrid.py` lines 229-235),
identical in shape to the filesystem detector's stop. -/
def hybridDetectorStop (st : ObserverDetectorState) : ObserverDetectorState × List String :=
  if st.hasObserver then (⟨false⟩, ["observer.stop", "observer.join"]) else (st, [])

/-- State relevant to `NotificationDatabaseDetector.stop` and
`DistributedNotificationDetector.stop`: the `_running` flag and whether
the background thread is alive. -/
structure ThreadDetectorState where
  running : Bool
  threadAlive : Bool
deriving DecidableEq

/-- Models the thread-based `stop()` (`detectors/database.py` lines
273-278 and `detectors/distributed.py` lines 207-212): clear `_running`
and join the thread when it is alive. -/
def threadDetectorStop (st : ThreadDetectorState) : ThreadDetectorState × List String :=
  ({ st with running := false }, if st.threadAlive then ["thread.join"] else [])

/-- The background poll loop exits once `_running` is false; a completed
`stop()` therefore leaves the thread dead.  This transition models that
quiescence. -/
def threadQuiesce (st : ThreadDetectorState) : ThreadDetectorState :=
  if st.running then st else { st with threadAlive := false }

/-! ## Orchestrator detector selection (`core/monitor.py`) -/

/-- The four detector variants. -/
inductive DetectorKind where
  | databasePoll
  | distributedObserve
  | filesystemWatch
  | hybrid
deriving DecidableEq

/-- Constructor arguments of `NotificationMonitor` relevant to detector
selection. -/
structure MonitorInitArgs where
  discoveryMode : Bool
  useFilesystemFallback : Bool
  useDatabase : Bool

/-- Fields stored by `NotificationMonitor.__init__`: line 71 assigns
`self.use_database = True` unconditionally, ignoring the argument. -/
structure MonitorFlags where
  discoveryMode : Bool
  useFilesystemFallback : Bool
  useDatabase : Bool

/-- Models `NotificationMonitor.__init__` on the selection-relevant
fields. -/
def monitorInit (a : MonitorInitArgs) : MonitorFlags :=
  ⟨a.discoveryMode, a.useFilesystemFallback, true⟩

/-- Models the detector construction in `NotificationMonitor.start`
(lines 171-188): outside discovery mode exactly the database detector,
in discovery mode exactly the distributed detector. -/
def monitorStartDetectors (f : MonitorFlags) : List DetectorKind :=
  if !f.discoveryMode then [.databasePoll] else [.distributedObserve]

/-! ## Lemmas about the deduplication sweep -/

/-- The sweep only deletes entries. -/
theorem mem_of_mem_cleanupExpired (cutoff : Int) :
    ∀ l : List (String × Int), ∀ p ∈ cleanupExpired cutoff l, p ∈ l := by
  intro l
  induction l with
  | nil => intro p hp; simp [cleanupExpired] at hp
  | cons a rest ih =>
    intro p hp
    obtain ⟨k, t⟩ := a
    rw [cleanupExpired] at hp
    split at hp
    · exact List.mem_cons_of_mem _ (ih p hp)
    · exact hp

/-- An entry still inside the window survives the sweep. -/
theorem mem_cleanupExpired_of_not_expired (cutoff : Int) :
    ∀ l : List (String × Int), ∀ p ∈ l, ¬(p.2 < cutoff) → p ∈ cleanupExpired cutoff l := by
  intro l
  induction l with
  | nil => intro p hp _; simp at hp
  | cons a rest ih =>
    intro p hp hfresh
    obtain ⟨k, t⟩ := a
    rw [cleanupExpired]
    split
    · rename_i hlt
      rcases List.mem_cons.mp hp with heq | hmem
      · rw [heq] at hfresh; exact absurd hlt hfresh
      · exact ih p hmem hfresh
    · exact hp

/-- C2: two `is_duplicate` calls whose content has equal normalized form
(lowercased, stripped), issued within `windowSeconds` of each other and
starting from a cache that does not hold the fingerprint, return false on
the first call and true on the second. -/
theorem dedup_second_call_duplicate (c : DeduplicationCache) (t1 t2 : Int)
    (s1 m1 s2 m2 : String)
    (hnorm : normalizeContent s1 m1 = normalizeContent s2 m2)
    (habs : computeHash s1 m1 ∉ c.cache.map Prod.fst)
    (_horder : t1 ≤ t2) (hwin : t2 - t1 ≤ c.windowSeconds) :
    (isDuplicate c t1 s1 m1).1 = false ∧
    (isDuplicate (isDuplicate c t1 s1 m1).2 t2 s2 m2).1 = true := by
  have hh : computeHash s2 m2 = computeHash s1 m1 := by
    unfold computeHash; rw [hnorm]
  have hnotin : computeHash s1 m1 ∉
      (cleanupExpired (t1 - c.windowSeconds) c.cache).map Prod.fst := by
    intro hin
    obtain ⟨p, hp, hpe⟩ := List.mem_map.mp hin
    exact habs (List.mem_map.mpr ⟨p, mem_of_mem_cleanupExpired _ _ p hp, hpe⟩)
  have h1 : isDuplicate c t1 s1 m1 =
      (false, { c with cache := cleanupExpired (t1 - c.windowSeconds) c.cache
                              ++ [(computeHash s1 m1, t1)] }) := by
    rw [isDuplicate, if_neg hnotin]
  refine ⟨by rw [h1], ?_⟩
  rw [h1]
  have hmem : (computeHash s1 m1, t1) ∈
      cleanupExpired (t2 - c.windowSeconds)
        (cleanupExpired (t1 - c.windowSeconds) c.cache ++ [(computeHash s1 m1, t1)]) := by
    apply mem_cleanupExpired_of_not_expired
    · exact List.mem_append_right _ (List.mem_singleton.mpr rfl)
    · simp only
      omega
  rw [isDuplicate, if_pos]
  rw [hh]
  exact List.mem_map_of_mem Prod.fst hmem

/-- Witness for C2 at a concrete cache and call pair. -/
theorem dedup_second_call_duplicate_witness :
    (isDuplicate ⟨30, []⟩ 0 "a" "b").1 = false ∧
    (isDuplicate (isDuplicate ⟨30, []⟩ 0 "a" "b").2 10 "a" "b").1 = true :=
  dedup_second_call_duplicate ⟨30, []⟩ 0 10 "a" "b" "a" "b" rfl (by simp)
    (by norm_num) (by norm_num)

/-- C8: when the fingerprint is already present after the expiry sweep,
`is_duplicate` returns true and performs no further state change: the
cache becomes exactly the swept cache, the entry keeps its original
first-seen timestamp, nothing is inserted, and no entry still inside the
window is removed. -/
theorem dedup_duplicate_frame (c : DeduplicationCache) (now t0 : Int) (s m : String)
    (hmem : (computeHash s m, t0) ∈ cleanupExpired (now - c.windowSeconds) c.cache) :
    (isDuplicate c now s m).1 = true ∧
    (isDuplicate c now s m).2.cache = cleanupExpired (now - c.windowSeconds) c.cache ∧
    (isDuplicate c now s m).2.windowSeconds = c.windowSeconds ∧
    (computeHash s m, t0) ∈ (isDuplicate c now s m).2.cache ∧
    ∀ p ∈ c.cache, ¬(p.2 < now - c.windowSeconds) → p ∈ (isDuplicate c now s m).2.cache := by
  have hin : computeHash s m ∈
      (cleanupExpired (now - c.windowSeconds) c.cache).map Prod.fst :=
    List.mem_map.mpr ⟨(computeHash s m, t0), hmem, rfl⟩
  have h1 : isDuplicate c now s m =
      (true, { c with cache := cleanupExpired (now - c.windowSeconds) c.cache }) := by
    rw [isDuplicate, if_pos hin]
  refine ⟨by rw [h1], by rw [h1], by rw [h1], by rw [h1]; exact hmem, ?_⟩
  intro p hp hfresh
  rw [h1]
  exact mem_cleanupExpired_of_not_expired _ _ p hp hfresh

/-- Witness for C8 at a concrete cache holding the fingerprint. -/
theorem dedup_duplicate_frame_witness :
    (isDuplicate ⟨30, [(computeHash "a" "b", 5)]⟩ 10 "a" "b").1 = true ∧
    (isDuplicate ⟨30, [(computeHash "a" "b", 5)]⟩ 10 "a" "b").2.cache =
      cleanupExpired (10 - (30 : Int)) [(computeHash "a" "b", 5)] ∧
    (isDuplicate ⟨30, [(computeHash "a" "b", 5)]⟩ 10 "a" "b").2.windowSeconds = 30 ∧
    (computeHash "a" "b", (5 : Int)) ∈
      (isDuplicate ⟨30, [(computeHash "a" "b", 5)]⟩ 10 "a" "b").2.cache ∧
    ∀ p ∈ [(computeHash "a" "b", (5 : Int))], ¬(p.2 < 10 - (30 : Int)) →
      p ∈ (isDuplicate ⟨30, [(computeHash "a" "b", 5)]⟩ 10 "a" "b").2.cache :=
  dedup_duplicate_frame ⟨30, [(computeHash "a" "b", 5)]⟩ 10 5 "a" "b"
    (by rw [cleanupExpired, if_neg (by norm_num)]; exact List.mem_singleton.mpr rfl)

/-! ## The orchestrator callback, the bot filter and the parser -/

/-- C1: the shared detector callback rejects empty events with no state
change and no sink call; counts a bot-classified event as filtered with
no sink call; counts a duplicate as filtered with no sink call; and
otherwise increments the processed counter and forwards exactly one
`(sender, message)` event to the sink.  The sink is therefore called at
most once per call and never on a filtered or duplicate event. -/
theorem handle_notification_pipeline (st : MonitorState) (now : Int)
    (sender message : String) (md : Option (List (String × String))) :
    (sender = "" ∨ message = "" → handleNotification st now sender message md = (st, [])) ∧
    (sender ≠ "" → message ≠ "" →
      isBotMessage defaultBotPatterns (botKeywordsInit defaultBotKeywords)
        sender message = true →
      handleNotification st now sender message md =
        ({ st with filtered := st.filtered + 1 }, [])) ∧
    (sender ≠ "" → message ≠ "" →
      isBotMessage defaultBotPatterns (botKeywordsInit defaultBotKeywords)
        sender message = false →
      (isDuplicate st.cache now sender message).1 = true →
      handleNotification st now sender message md =
        ({ st with cache := (isDuplicate st.cache now sender message).2,
                   filtered := st.filtered + 1 }, [])) ∧
    (sender ≠ "" → message ≠ "" →
      isBotMessage defaultBotPatterns (botKeywordsInit defaultBotKeywords)
        sender message = false →
      (isDuplicate st.cache now sender message).1 = false →
      handleNotification st now sender message md =
        ({ st with cache := (isDuplicate st.cache now sender message).2,
                   processed := st.processed + 1 }, [(sender, message)])) := by
  refine ⟨?_, ?_, ?_, ?_⟩
  · intro h
    rw [handleNotification, if_pos h]
  · intro hs hm hbot
    rw [handleNotification, if_neg (by tauto), if_pos hbot]
  · intro hs hm hbot hdup
    rw [handleNotification, if_neg (by tauto)]
    rw [if_neg (by rw [hbot]; exact Bool.false_ne_true), if_pos hdup]
  · intro hs hm hbot hdup
    rw [handleNotification, if_neg (by tauto)]
    rw [if_neg (by rw [hbot]; exact Bool.false_ne_true),
        if_neg (by rw [hdup]; exact Bool.false_ne_true)]

/-- Witness for C1 on the accepted branch with a fresh event. -/
theorem handle_notification_pipeline_witness :
    handleNotification ⟨⟨30, []⟩, 0, 0⟩ 0 "Carol" "ping" none =
      ({ cache := (isDuplicate (⟨30, []⟩ : DeduplicationCache) 0 "Carol" "ping").2,
         processed := 1, filtered := 0 }, [("Carol", "ping")]) :=
  (handle_notification_pipeline ⟨⟨30, []⟩, 0, 0⟩ 0 "Carol" "ping" none).2.2.2
    (by decide) (by decide) (by decide) rfl

/-- C5: with the default pattern and keyword lists, `is_bot_message`
accepts the sender-pattern example and the message-keyword example and
rejects the plain message; a sender-pattern match alone already forces a
true result for any keyword list, and the filter is the short-circuit
disjunction of the sender-pattern scan (tested first) and the
message-keyword scan. -/
theorem bot_filter_defaults :
    isBotMessage defaultBotPatterns (botKeywordsInit defaultBotKeywords)
      "workflow-bot" "hello" = true ∧
    isBotMessage defaultBotPatterns (botKeywordsInit defaultBotKeywords)
      "Alice" "Bob has joined the channel" = true ∧
    isBotMessage defaultBotPatterns (botKeywordsInit defaultBotKeywords)
      "Alice" "Let\x27s ship it" = false ∧
    (∀ patterns keywords sender message,
      patterns.any (fun p => patternSearch p (pyLower sender).data) = true →
      isBotMessage patterns keywords sender message = true) ∧
    (∀ patterns keywords sender message,
      isBotMessage patterns keywords sender message =
        (patterns.any (fun p => patternSearch p (pyLower sender).data)
          || keywords.any (fun k => containsSub k.data (pyLower message).data))) := by
  refine ⟨by decide, by decide, by decide, ?_, fun _ _ _ _ => rfl⟩
  intro patterns keywords sender message h
  simp [isBotMessage, h]

/-- Witness for C5 on the sender-pattern conjunct with a fresh keyword
list. -/
theorem bot_filter_defaults_witness :
    isBotMessage defaultBotPatterns ["x"] "workflow-bot" "hello" = true :=
  bot_filter_defaults.2.2.2.1 defaultBotPatterns ["x"] "workflow-bot" "hello" (by decide)

/-- C6: the primary-format parser takes the message verbatim from the
cleaned body; the sender is the stripped text before the first
`" in #"` marker when the cleaned title contains it, else the cleaned
subtitle when non-empty, else the cleaned title — including the two
concrete examples from the specification. -/
theorem database_parse_primary (t sub b : String) :
    (containsSub (" in #".data) (cleanString t).data = true →
      parsePrimary t sub b =
        (pyStrip ⟨takeBefore (" in #".data) (cleanString t).data⟩, cleanString b)) ∧
    (containsSub (" in #".data) (cleanString t).data = false → cleanString sub ≠ "" →
      parsePrimary t sub b = (cleanString sub, cleanString b)) ∧
    (containsSub (" in #".data) (cleanString t).data = false → cleanString sub = "" →
      parsePrimary t sub b = (cleanString t, cleanString b)) ∧
    parsePrimary "Alice in #general" "" "hi" = ("Alice", "hi") ∧
    parsePrimary "Workspace" "Bob" "hey" = ("Bob", "hey") := by
  refine ⟨?_, ?_, ?_, by decide, by decide⟩
  · intro h
    simp [parsePrimary, h]
  · intro h hsub
    simp [parsePrimary, h, hsub]
  · intro h hsub
    simp [parsePrimary, h, hsub]

/-- Witness for C6 on the channel-marker branch. -/
theorem database_parse_primary_witness :
    parsePrimary "Alice in #general" "" "hi" =
      (pyStrip ⟨takeBefore (" in #".data) (cleanString "Alice in #general").data⟩,
       cleanString "hi") :=
  (database_parse_primary "Alice in #general" "" "hi").1 (by decide)

/-! ## Lemmas about the DatabasePoll poll loop -/

/-- Processing one row never lowers the watermark. -/
theorem processRow_watermark_mono (st : DbState) (row : DbRow) :
    st.lastTimestamp ≤ (processRow st row).1.lastTimestamp := by
  rw [processRow]
  split
  · exact le_refl _
  · simp only
    split <;> omega

/-- Processing a batch never lowers the watermark. -/
theorem processBatch_watermark_mono (rows : List DbRow) :
    ∀ st : DbState, st.lastTimestamp ≤ (processBatch st rows).1.lastTimestamp := by
  induction rows with
  | nil => intro st; exact le_refl _
  | cons row rest ih =>
    intro st
    rw [processBatch]
    exact le_trans (processRow_watermark_mono st row) (ih (processRow st row).1)

/-- A full run of poll ticks never lowers the watermark. -/
theorem runTicks_watermark_mono (batches : List (List DbRow)) :
    ∀ st : DbState, st.lastTimestamp ≤ (runTicks st batches).lastTimestamp := by
  induction batches with
  | nil => intro st; exact le_refl _
  | cons b bs ih =>
    intro st
    rw [runTicks]
    exact le_trans (processBatch_watermark_mono b st) (ih _)

/-- Identifiers in the seen set stay seen while a batch runs. -/
theorem processRow_seen_mono (st : DbState) (row : DbRow) {x : Nat}
    (hx : x ∈ st.seenUuids) : x ∈ (processRow st row).1.seenUuids := by
  rw [processRow]
  split
  · exact hx
  · exact List.mem_append_left _ hx

/-- Every event emitted during a batch carries an identifier that was
not in the seen set when the batch started. -/
theorem processBatch_emits_unseen (rows : List DbRow) :
    ∀ st : DbState, ∀ e ∈ (processBatch st rows).2, e.uuid ∉ st.seenUuids := by
  induction rows with
  | nil => intro st e he; simp [processBatch] at he
  | cons row rest ih =>
    intro st e he hmem
    rw [processBatch] at he
    rcases List.mem_append.mp he with h1 | h2
    · by_cases hseen : row.uuid ∈ st.seenUuids
      · rw [processRow, if_pos hseen] at h1
        simp at h1
      · rw [processRow, if_neg hseen] at h1
        simp only at h1
        split at h1
        · rw [List.mem_singleton.mp h1] at hmem
          exact hseen hmem
        · simp at h1
    · exact ih (processRow st row).1 e h2 (processRow_seen_mono st row hmem)

/-- C7: across any sequence of poll ticks the watermark is
non-decreasing; a row whose identifier is already in the seen set is
skipped without any state change or callback; and every callback made
during a tick is for an identifier that was unseen at the start of that
tick. -/
theorem dbpoll_watermark_monotone_no_reprocess (st : DbState)
    (batches : List (List DbRow)) (rows : List DbRow) (row : DbRow)
    (hseen : row.uuid ∈ st.seenUuids) :
    st.lastTimestamp ≤ (runTicks st batches).lastTimestamp ∧
    processRow st row = (st, []) ∧
    ∀ e ∈ (checkForNotifications st rows).2, e.uuid ∉ st.seenUuids := by
  refine ⟨runTicks_watermark_mono batches st, ?_, ?_⟩
  · rw [processRow, if_pos hseen]
  · intro e he
    exact processBatch_emits_unseen rows st e he

/-- Witness for C7 with a concrete seen identifier. -/
theorem dbpoll_watermark_monotone_no_reprocess_witness :
    (0 : Int) ≤ (runTicks ⟨0, [7]⟩ [[⟨7, "a", "b", "c", 5⟩]]).lastTimestamp ∧
    processRow ⟨0, [7]⟩ ⟨7, "t", "s", "b", 3⟩ = (⟨0, [7]⟩, []) ∧
    ∀ e ∈ (checkForNotifications ⟨0, [7]⟩ []).2,
      e.uuid ∉ (⟨0, [7]⟩ : DbState).seenUuids :=
  dbpoll_watermark_monotone_no_reprocess ⟨0, [7]⟩ [[⟨7, "a", "b", "c", 5⟩]] []
    ⟨7, "t", "s", "b", 3⟩ (by simp)

/-! ## The seen-identifier cap -/

/-- After cap enforcement the set never exceeds the ceiling. -/
theorem enforceCap_length_le (ceiling keep : Nat) (l : List Nat)
    (hk : keep ≤ ceiling) : (enforceCap ceiling keep l).length ≤ ceiling := by
  rw [enforceCap]
  split
  · rw [List.length_drop]; omega
  · omega

/-- When the ceiling is exceeded, enforcement keeps exactly the trailing
`keep` elements of the iteration order. -/
theorem enforceCap_eq_of_gt (ceiling keep : Nat) (l : List Nat)
    (h : l.length > ceiling) (hk : keep ≤ ceiling) :
    enforceCap ceiling keep l = l.drop (l.length - keep) ∧
    (enforceCap ceiling keep l).length = keep := by
  rw [enforceCap, if_pos h]
  exact ⟨rfl, by rw [List.length_drop]; omega⟩

/-- When the hybrid lookup completes without returning a notification,
the cap has been enforced and the seen set holds at most 500 entries. -/
theorem hybridLookup_none_cap (hrows : List HyRow) :
    ∀ hy : HyState, (hybridLookup hy hrows).2 = none →
      (hybridLookup hy hrows).1.seenUuids.length ≤ 500 := by
  induction hrows with
  | nil =>
    intro hy _
    exact enforceCap_length_le 500 250 hy.seenUuids (by omega)
  | cons row rest ih =>
    intro hy hnone
    by_cases hmem : row.uuid ∈ hy.seenUuids
    · rw [hybridLookup, if_pos hmem] at hnone ⊢
      exact ih hy hnone
    · by_cases hcond : row.title ≠ "" ∧ row.body ≠ ""
      · rw [hybridLookup, if_neg hmem, if_pos hcond] at hnone
        simp at hnone
      · rw [hybridLookup, if_neg hmem, if_neg hcond] at hnone ⊢
        exact ih ⟨hy.seenUuids ++ [row.uuid]⟩ hnone

/-- C3 counterexample: a hybrid lookup that starts at the 500-identifier
ceiling and finds an unseen, parseable record returns early and leaves
501 identifiers in the seen set, so the set does *not* hold at most 500
identifiers after every poll batch. -/
theorem hybrid_seen_cap_counterexample :
    (hybridLookup ⟨List.range 500⟩ [⟨500, "T", "B"⟩]).1.seenUuids.length = 501 ∧
    ¬ (hybridLookup ⟨List.range 500⟩ [⟨500, "T", "B"⟩]).1.seenUuids.length ≤ 500 ∧
    (hybridLookup ⟨List.range 500⟩ [⟨500, "T", "B"⟩]).2 = some ("T", "B") := by
  have h : hybridLookup ⟨List.range 500⟩ [⟨500, "T", "B"⟩] =
      (⟨List.range 500 ++ [500]⟩, some ("T", "B")) := by
    rw [hybridLookup, if_neg (by simp), if_pos (by simp)]
    simp [containsSub, prefixMatch]
  rw [h]
  simp

/-- C3 amended: the DatabasePoll detector enforces its cap after every
batch, so its seen set ends every tick with at most 1000 identifiers and,
when the ceiling was exceeded, retains exactly the trailing 500 of the
iteration order (the most recently inserted, taking the set's iteration
order as insertion order); the Hybrid detector enforces its 500-cap
(retaining the trailing 250) only on lookups that return no notification
— on an early return the set can exceed 500. -/
theorem seen_cap_amended (st : DbState) (rows : List DbRow)
    (hy : HyState) (hrows : List HyRow) (seenDb seenHy : List Nat)
    (hdb : seenDb.length > 1000) (hhy : seenHy.length > 500)
    (hnone : (hybridLookup hy hrows).2 = none) :
    (checkForNotifications st rows).1.seenUuids.length ≤ 1000 ∧
    enforceCap 1000 500 seenDb = seenDb.drop (seenDb.length - 500) ∧
    (enforceCap 1000 500 seenDb).length = 500 ∧
    (hybridLookup hy hrows).1.seenUuids.length ≤ 500 ∧
    enforceCap 500 250 seenHy = seenHy.drop (seenHy.length - 250) ∧
    (enforceCap 500 250 seenHy).length = 250 := by
  obtain ⟨hdb1, hdb2⟩ := enforceCap_eq_of_gt 1000 500 seenDb hdb (by omega)
  obtain ⟨hhy1, hhy2⟩ := enforceCap_eq_of_gt 500 250 seenHy hhy (by omega)
  exact ⟨enforceCap_length_le 1000 500 (processBatch st rows).1.seenUuids (by omega),
         hdb1, hdb2, hybridLookup_none_cap hrows hy hnone, hhy1, hhy2⟩

/-- Witness for the amended C3 at concrete sets and a completing
lookup. -/
theorem seen_cap_amended_witness :
    (checkForNotifications ⟨0, []⟩ []).1.seenUuids.length ≤ 1000 ∧
    enforceCap 1000 500 (List.range 1001) =
      (List.range 1001).drop ((List.range 1001).length - 500) ∧
    (enforceCap 1000 500 (List.range 1001)).length = 500 ∧
    (hybridLookup ⟨[]⟩ []).1.seenUuids.length ≤ 500 ∧
    enforceCap 500 250 (List.range 501) =
      (List.range 501).drop ((List.range 501).length - 250) ∧
    (enforceCap 500 250 (List.range 501)).length = 250 :=
  seen_cap_amended ⟨0, []⟩ [] ⟨[]⟩ [] (List.range 1001) (List.range 501)
    (by simp) (by simp) rfl

/-! ## DistributedObserve field extraction -/

/-- C4 counterexample: with metadata holding an empty `title` alongside
non-empty `sender` and `body` values, the code extracts the empty string
as sender (first key *present* wins) and makes no callback, while the
claimed first-non-empty rule would extract `"Bob"` and demand a
callback. -/
theorem extract_message_info_counterexample :
    extractMessageInfo [("title", ""), ("sender", "Bob"), ("body", "hi")] = ("", "hi") ∧
    extractMessageInfoSpec [("title", ""), ("sender", "Bob"), ("body", "hi")] =
      ("Bob", "hi") ∧
    observerEmits [("title", ""), ("sender", "Bob"), ("body", "hi")] = [] := by
  decide

/-- C4 amended: the extracted sender is the value of the first key
*present* among `title`, `sender`, `from` (in that order), the extracted
message the value of the first key present among `body`, `message`,
`text`, and the callback fires exactly when both extracted strings are
non-empty, with those extracted values. -/
theorem extract_message_info_amended (userInfo : List (String × String)) :
    extractMessageInfo userInfo =
      (firstPresentKey userInfo ["title", "sender", "from"],
       firstPresentKey userInfo ["body", "message", "text"]) ∧
    (observerEmits userInfo ≠ [] ↔
      ((extractMessageInfo userInfo).1 ≠ "" ∧ (extractMessageInfo userInfo).2 ≠ "")) ∧
    ∀ p ∈ observerEmits userInfo, p = extractMessageInfo userInfo := by
  refine ⟨?_, ?_, ?_⟩
  · by_cases hempty : userInfo.isEmpty
    · rw [List.isEmpty_iff] at hempty
      subst hempty
      rfl
    · rw [extractMessageInfo, if_neg hempty]
      simp only [firstPresentKey]
    -- both sides reduce to the same nested conditionals
  · by_cases hc : (extractMessageInfo userInfo).1 ≠ "" ∧ (extractMessageInfo userInfo).2 ≠ ""
    · rw [observerEmits, if_pos hc]
      simp [hc]
    · rw [observerEmits, if_neg hc]
      simp [hc]
  · intro p hp
    rw [observerEmits] at hp
    split at hp
    · rw [List.mem_singleton.mp hp]
    · simp at hp

/-! ## Stop idempotence and detector selection -/

/-- C9: for each detector variant a second `stop()` after a completed
first one performs no action.  The observer-based detectors clear their
observer field on the first call, so the second call releases nothing;
the thread-based detectors leave `_running` false after the first call,
the background loop then exits (`threadQuiesce`), and the second call
finds no live thread to join.  All four stop functions are total, so no
error is raised. -/
theorem detector_stop_idempotent (fs hy : ObserverDetectorState)
    (db dist : ThreadDetectorState) :
    fsDetectorStop (fsDetectorStop fs).1 = ((fsDetectorStop fs).1, []) ∧
    hybridDetectorStop (hybridDetectorStop hy).1 = ((hybridDetectorStop hy).1, []) ∧
    threadDetectorStop (threadQuiesce (threadDetectorStop db).1) =
      (threadQuiesce (threadDetectorStop db).1, []) ∧
    threadDetectorStop (threadQuiesce (threadDetectorStop dist).1) =
      (threadQuiesce (threadDetectorStop dist).1, []) := by
  obtain ⟨fo⟩ := fs
  obtain ⟨ho⟩ := hy
  obtain ⟨dr, da⟩ := db
  obtain ⟨tr, ta⟩ := dist
  cases fo <;> cases ho <;> cases dr <;> cases da <;> cases tr <;> cases ta <;> decide

/-- C10: detector selection depends only on `discovery_mode`: the
`use_database` and `use_filesystem_fallback` arguments never change it;
outside discovery mode exactly one DatabasePoll detector is constructed
and started, in discovery mode exactly one DistributedObserve detector;
the FilesystemWatch and Hybrid detectors are never started. -/
theorem monitor_start_detector_selection (a : MonitorInitArgs)
    (d u1 u2 v1 v2 : Bool) :
    monitorStartDetectors (monitorInit a) =
      (if a.discoveryMode then [DetectorKind.distributedObserve]
       else [DetectorKind.databasePoll]) ∧
    monitorStartDetectors (monitorInit ⟨d, u1, v1⟩) =
      monitorStartDetectors (monitorInit ⟨d, u2, v2⟩) ∧
    (monitorStartDetectors (monitorInit a)).length = 1 ∧
    DetectorKind.filesystemWatch ∉ monitorStartDetectors (monitorInit a) ∧
    DetectorKind.hybrid ∉ monitorStartDetectors (monitorInit a) := by
  obtain ⟨ad, af, au⟩ := a
  cases ad <;> cases af <;> cases au <;> cases d <;>
    cases u1 <;> cases u2 <;> cases v1 <;> cases v2 <;> decide

end SlackPulse
